import Mathlib

/-!
Verification of the real-time voice-agent bridge (`agenticai`): a shallow
embedding of the audio codec (`audio/converter.py`), the conversation brain
(`core/conversation_brain.py`), the carrier media-stream handler
(`twilio/websocket.py`), the model realtime handler
(`gemini/realtime_handler.py`) and the audio bridge (`core/audio_bridge.py`),
with theorems about queueing, turn flushing, intent classification and the
codec wrappers.

External native libraries the Python code calls (`soxr.resample`,
`audioop.lin2ulaw`, `base64`, the LLM) are not part of the repository; they
appear as explicit function parameters of the embedded definitions, while the
repository's own control flow (length checks, early returns, buffering,
ordering) is translated literally.
-/

namespace AgenticAI

/-! ## Audio codec: `src/agenticai/audio/converter.py` -/

/-- A byte string, each element a byte value. -/
abbrev Bytes := List Nat

def TWILIO_SAMPLE_RATE : Nat := 8000
def GEMINI_INPUT_SAMPLE_RATE : Nat := 16000
def GEMINI_OUTPUT_SAMPLE_RATE : Nat := 24000
def PCM_SAMPLE_WIDTH : Nat := 2

/-- Reinterpret a little-endian byte pair as a signed 16-bit sample. -/
def toSigned16 (lo hi : Nat) : Int :=
  let u := lo % 256 + 256 * (hi % 256)
  if u < 32768 then (u : Int) else (u : Int) - 65536

/-- `np.frombuffer(audio_bytes, dtype=np.int16)`: view the byte string as
int16 samples; `none` models the `ValueError` numpy raises when the byte
length is not a multiple of the 2-byte element size. -/
def bytesToInt16 : Bytes → Option (List Int)
  | [] => some []
  | [_] => none
  | lo :: hi :: rest => (bytesToInt16 rest).map (fun t => toSigned16 lo hi :: t)

/-- `np.int16(...).tobytes()`: serialize samples back to little-endian bytes
(with the int16 wrap-around of `astype(np.int16)`). -/
def int16ToBytes (samples : List Int) : Bytes :=
  (samples.map (fun s =>
    let u := (s % 65536).toNat
    [u % 256, u / 256])).flatten

/-- `AudioConverter._resample`: identity when the rates agree, otherwise
reinterpret the bytes as int16 (which raises on odd length), run the external
soxr HQ resampler `soxr` on the samples, and serialize the result. The soxr
core itself is an external C library, passed in as a parameter. -/
def resample (soxr : List Int → Nat → Nat → List Int)
    (audioBytes : Bytes) (fromRate toRate : Nat) : Except String Bytes :=
  if fromRate = toRate then Except.ok audioBytes
  else
    match bytesToInt16 audioBytes with
    | none => Except.error "buffer size must be a multiple of element size"
    | some samples => Except.ok (int16ToBytes (soxr samples fromRate toRate))

/-- `audioop.lin2ulaw(fragment, 2)`: encode each 16-bit sample with the
external μ-law encoder `enc`; the C implementation raises
`audioop.error("not a whole number of frames")` when the byte length is not a
multiple of the sample width. -/
def lin2ulaw (enc : Int → Nat) (pcm : Bytes) : Except String Bytes :=
  match bytesToInt16 pcm with
  | none => Except.error "not a whole number of frames"
  | some samples => Except.ok (samples.map enc)

/-- `AudioConverter.gemini_to_twilio`: resample 24 kHz → 8 kHz, convert PCM to
μ-law, base64-encode (the base64 encoder `b64` is the external library). -/
def gemini_to_twilio (soxr : List Int → Nat → Nat → List Int)
    (enc : Int → Nat) (b64 : Bytes → String)
    (geminiAudio : Bytes) : Except String String := do
  let pcm8khz ← resample soxr geminiAudio GEMINI_OUTPUT_SAMPLE_RATE TWILIO_SAMPLE_RATE
  let mulawBytes ← lin2ulaw enc pcm8khz
  Except.ok (b64 mulawBytes)

/-- A trivial stand-in for the external soxr core, used only to instantiate
theorems at concrete inputs (the wrapper logic under verification never
depends on the core's values). -/
def soxrStub : List Int → Nat → Nat → List Int := fun samples _ _ => samples

/-- A trivial stand-in for the external μ-law sample encoder. -/
def ulawStub : Int → Nat := fun _ => 255

/-- A trivial stand-in for the external base64 encoder. -/
def b64Stub : Bytes → String := fun _ => ""

/-! ## Python string primitives

Structurally recursive (kernel-evaluable) models of the Python string
methods the brain uses: `str.strip`, `str.lower`, `str.upper`,
`str.startswith`. -/

/-- Python `str.strip()`: drop leading and trailing whitespace. -/
def pyStrip (s : String) : String :=
  ⟨((s.data.dropWhile Char.isWhitespace).reverse.dropWhile
      Char.isWhitespace).reverse⟩

/-- Python `str.lower()` (ASCII case mapping suffices here). -/
def pyLower (s : String) : String :=
  ⟨s.data.map Char.toLower⟩

/-- Python `str.upper()` (ASCII case mapping suffices here). -/
def pyUpper (s : String) : String :=
  ⟨s.data.map Char.toUpper⟩

/-- Python `str.startswith(pre)`. -/
def pyStartsWith (s pre : String) : Bool :=
  pre.data.isPrefixOf s.data

/-! ## Conversation brain: `src/agenticai/core/conversation_brain.py` -/

/-- Bool substring test on character lists (Python's `needle in hay`). -/
def containsSub (hay needle : List Char) : Bool :=
  (List.range (hay.length + 1)).any fun i => needle.isPrefixOf (hay.drop i)

/-- Python's `needle in hay` on strings. -/
def strContains (hay needle : String) : Bool :=
  containsSub hay.data needle.data

/-- The parsed-command dict `{"original_request": user_text}` built by
`_analyze_intent`. -/
structure Command where
  originalRequest : String
deriving DecidableEq, Repr

/-- `ConversationTurn` (timestamps dropped: wall-clock time is not modelled). -/
structure ConversationTurn where
  speaker : String
  text : String
  intent : Option String
  command : Option Command
deriving DecidableEq, Repr

/-- The mutable state of `ConversationBrain` relevant to transcript handling:
the two fragment buffers and `memory.turns` (flush timestamps dropped). -/
structure BrainState where
  assistantBuffer : List String
  userBuffer : List String
  memoryTurns : List ConversationTurn
deriving DecidableEq, Repr

/-- Brain state right after `ConversationBrain.__init__`. -/
def initialBrain : BrainState :=
  { assistantBuffer := [], userBuffer := [], memoryTurns := [] }

/-- `ConversationBrain.add_assistant_transcript`: append the fragment verbatim
when it is truthy (non-empty). -/
def add_assistant_transcript (s : BrainState) (text : String) : BrainState :=
  if text = "" then s
  else { s with assistantBuffer := s.assistantBuffer ++ [text] }

/-- `ConversationBrain.add_user_transcript`: append the fragment verbatim when
it is truthy (non-empty). -/
def add_user_transcript (s : BrainState) (text : String) : BrainState :=
  if text = "" then s
  else { s with userBuffer := s.userBuffer ++ [text] }

/-- The quick-skip list `non_actionable_phrases` of `_analyze_intent`. -/
def nonActionablePhrases : List String :=
  ["hi", "hello", "hey", "good morning", "good afternoon", "good evening",
   "how are you", "what's up", "sup", "yo", "thanks", "thank you",
   "okay", "ok", "alright", "sure", "yes", "no", "yeah", "nope",
   "bye", "goodbye", "see you", "later", "nevermind", "never mind",
   "forget it", "forget about it", "nothing", "hmm", "um", "uh"]

/-- The quick-path `action_keywords` of `_analyze_intent`. -/
def actionKeywords : List String :=
  ["open", "play", "search", "find", "send", "call", "text",
   "check", "show", "get", "set", "turn", "start", "stop",
   "email", "message", "youtube", "spotify", "browser", "google"]

/-- Result of `_analyze_intent`, plus whether the LLM classifier was
consulted on the way. -/
structure IntentResult where
  intent : String
  command : Option Command
  isActionable : Bool
  usedLLM : Bool
deriving DecidableEq, Repr

/-- `ConversationBrain._analyze_intent`. The LLM classifier is external: `llm`
returns the raw `response.text` of the YES/NO model call, or `none` when that
call raises (the `except` branch defaults to actionable, fail-open). -/
def analyze_intent (llm : String → Option String) (userText : String) :
    IntentResult :=
  let textLower := pyStrip (pyLower userText)
  if nonActionablePhrases.contains textLower ∨ textLower.length < 3 then
    { intent := "conversation", command := none,
      isActionable := false, usedLLM := false }
  else if actionKeywords.any (fun kw =>
      pyStartsWith textLower kw ∨
      strContains (" " ++ textLower ++ " ") (" " ++ kw ++ " ")) then
    { intent := "action", command := some { originalRequest := userText },
      isActionable := true, usedLLM := false }
  else
    match llm userText with
    | none =>
      { intent := "action", command := some { originalRequest := userText },
        isActionable := true, usedLLM := true }
    | some answerRaw =>
      let answer := pyUpper (pyStrip answerRaw)
      if pyStartsWith answer "YES" then
        { intent := "action", command := some { originalRequest := userText },
          isActionable := true, usedLLM := true }
      else
        { intent := "conversation", command := none,
          isActionable := false, usedLLM := true }

/-- What `asyncio.create_subprocess_exec` + `wait_for(..., timeout=95)` can do
in `_send_to_clawdbot_async`: finish in time with captured stdout, exceed the
95-second wall and be killed, or raise. -/
inductive SubprocessOutcome where
  | completed (stdout : String)
  | timedOut
  | raised (msg : String)
deriving DecidableEq, Repr

/-- The fixed phrase returned when the ClawdBot subprocess times out. -/
def stillWorkingPhrase : String :=
  "I'm still working on that. It's taking longer than expected."

/-- `--timeout` argument passed on the `clawdbot agent` command line. -/
def clawdbotArgTimeoutSeconds : Nat := 90

/-- The `asyncio.wait_for` hard timeout around `process.communicate()`. -/
def clawdbotHardTimeoutSeconds : Nat := 95

/-- The stdout filter of `_send_to_clawdbot_async`: keep lines that are
non-blank, contain no `DeprecationWarning`, and do not start with `(node:` or
`` (Use `node ``; rejoin and strip. -/
def cleanClawdbotOutput (raw : String) : String :=
  let lines := raw.splitOn "\n"
  let cleanLines := lines.filter fun line =>
    pyStrip line ≠ "" ∧
    ¬ strContains line "DeprecationWarning" ∧
    ¬ pyStartsWith line "(node:" ∧
    ¬ pyStartsWith line "(Use `node"
  pyStrip (String.intercalate "\n" cleanLines)

/-- Result of one `_send_to_clawdbot_async` call: the returned text (`none`
models Python `None`) and whether `process.kill()` ran. -/
structure ClawdbotResult where
  reply : Option String
  killed : Bool
deriving DecidableEq, Repr

/-- `ConversationBrain._send_to_clawdbot_async`, with the subprocess itself
abstracted as `proc` (its outcome for the dispatched message). Empty chat id
returns `None` up front; a timeout kills the process and returns the fixed
phrase; otherwise stdout is decoded, stripped and cleaned; an exception
returns the apology string. -/
def send_to_clawdbot (telegramChatId : String) (proc : SubprocessOutcome) :
    ClawdbotResult :=
  if telegramChatId = "" then { reply := none, killed := false }
  else
    match proc with
    | SubprocessOutcome.timedOut =>
      { reply := some stillWorkingPhrase, killed := true }
    | SubprocessOutcome.completed stdout =>
      let responseText : Option String :=
        if stdout = "" then none else some (pyStrip stdout)
      let responseText : Option String :=
        match responseText with
        | none => none
        | some t => if t ≠ "" then some (cleanClawdbotOutput t) else some t
      { reply := responseText, killed := false }
    | SubprocessOutcome.raised msg =>
      { reply := some ("Sorry, I encountered an error: " ++ msg),
        killed := false }

/-- `ConversationBrain.flush_assistant_turn`: nothing on an empty buffer;
otherwise concatenate the fragments directly, strip, clear the buffer, and
record an assistant turn when the stripped text is non-empty. -/
def flush_assistant_turn (s : BrainState) : BrainState :=
  if s.assistantBuffer = [] then s
  else
    let fullText := pyStrip (String.join s.assistantBuffer)
    let s1 := { s with assistantBuffer := [] }
    if fullText = "" then s1
    else { s1 with memoryTurns := s1.memoryTurns ++
            [{ speaker := "assistant", text := fullText,
               intent := none, command := none }] }

/-- The observable effects of one `flush_user_turn` call, alongside the new
brain state: the messages dispatched to the ClawdBot subprocess, whether the
LLM classifier ran, the responses handed to the `_on_clawdbot_response`
callback, whether a subprocess was killed, and the `_on_command` invocations. -/
structure UserFlushResult where
  state : BrainState
  executorCalls : List String
  llmConsulted : Bool
  spokenResponses : List String
  killed : Bool
  commandCallbacks : List (String × Command)
deriving DecidableEq, Repr

/-- A `flush_user_turn` call that changes nothing and has no effects. -/
def noFlushEffects (s : BrainState) : UserFlushResult :=
  { state := s, executorCalls := [], llmConsulted := false,
    spokenResponses := [], killed := false, commandCallbacks := [] }

/-- `ConversationBrain.flush_user_turn`. `llm` is the external classifier,
`telegramChatId` the configured chat id, `proc` the ClawdBot subprocess
behaviour for a dispatched message, `hasResponseCallback` /
`hasCommandCallback` whether the two callbacks are set (the audio bridge sets
only `on_clawdbot_response`). -/
def flush_user_turn (llm : String → Option String) (telegramChatId : String)
    (proc : String → SubprocessOutcome)
    (hasResponseCallback hasCommandCallback : Bool)
    (s : BrainState) : UserFlushResult :=
  if s.userBuffer = [] then noFlushEffects s
  else
    let fullText := pyStrip (String.join s.userBuffer)
    let s1 := { s with userBuffer := [] }
    if fullText = "" then noFlushEffects s1
    else
      let r := analyze_intent llm fullText
      let s2 := { s1 with memoryTurns := s1.memoryTurns ++
            [{ speaker := "user", text := fullText,
               intent := some r.intent, command := r.command }] }
      let res := send_to_clawdbot telegramChatId (proc fullText)
      let executorCalls := if r.isActionable then [fullText] else []
      let spoken :=
        if r.isActionable then
          match res.reply with
          | some response =>
            if response ≠ "" ∧ hasResponseCallback then [response] else []
          | none => []
        else []
      let killed := if r.isActionable then res.killed else false
      let commandCallbacks :=
        match r.command with
        | some cmd => if hasCommandCallback then [("", cmd)] else []
        | none => []
      { state := s2, executorCalls := executorCalls,
        llmConsulted := r.usedLLM, spokenResponses := spoken,
        killed := killed, commandCallbacks := commandCallbacks }

/-! ## Carrier stream: `src/agenticai/twilio/websocket.py` -/

/-- `StreamMetadata` of the carrier start event. -/
structure StreamMetadata where
  streamSid : String
  callSid : String
  accountSid : String
deriving DecidableEq, Repr

/-- State of `TwilioMediaStreamHandler`: the connected flag and the stored
stream metadata. -/
structure TwilioState where
  isConnected : Bool
  metadata : StreamMetadata
deriving DecidableEq, Repr

/-- Handler state right after `TwilioMediaStreamHandler.__init__`. -/
def initialTwilio : TwilioState :=
  { isConnected := false,
    metadata := { streamSid := "", callSid := "", accountSid := "" } }

/-- Parsed inbound carrier events (`_handle_message` dispatch). -/
inductive TwilioEvent where
  | connected
  | start (meta : StreamMetadata)
  | media (payload : String)
  | stop
  | mark (name : String)
deriving DecidableEq, Repr

/-- The state change of `_handle_message`: `connected` sets the flag, `start`
stores the metadata, `stop` clears the flag; `media` and `mark` only invoke
callbacks. -/
def handle_message (s : TwilioState) (e : TwilioEvent) : TwilioState :=
  match e with
  | TwilioEvent.connected => { s with isConnected := true }
  | TwilioEvent.start meta => { s with metadata := meta }
  | TwilioEvent.media _ => s
  | TwilioEvent.stop => { s with isConnected := false }
  | TwilioEvent.mark _ => s

/-- Outbound frames written on the carrier channel. -/
inductive OutFrame where
  | media (streamSid payload : String)
  | clear (streamSid : String)
  | mark (streamSid name : String)
deriving DecidableEq, Repr

/-- Whether a frame is a carrier `clear` frame. -/
def OutFrame.isClear : OutFrame → Bool
  | OutFrame.clear _ => true
  | _ => false

/-- `TwilioMediaStreamHandler.send_audio`: nothing when not connected,
otherwise exactly one media frame echoing the stored stream sid. -/
def send_audio (s : TwilioState) (payload : String) : List OutFrame :=
  if s.isConnected then [OutFrame.media s.metadata.streamSid payload] else []

/-- `TwilioMediaStreamHandler.send_clear`: nothing when not connected,
otherwise exactly one clear frame echoing the stored stream sid. -/
def send_clear (s : TwilioState) : List OutFrame :=
  if s.isConnected then [OutFrame.clear s.metadata.streamSid] else []

/-! ## Model stream: `src/agenticai/gemini/realtime_handler.py` -/

/-- The `maxsize` of `asyncio.Queue()` as created for `audio_out_queue` in
`GeminiRealtimeHandler.connect` (line 109): no argument, so `maxsize = 0`,
which in asyncio means the queue is never full (unbounded). -/
def audioOutQueueMaxsize : Nat := 0

/-- `GeminiRealtimeHandler.send_audio`: drop empty chunks, otherwise
`put` onto the (unbounded, FIFO) `audio_out_queue`; nothing is ever evicted. -/
def gemini_send_audio (queue : List Bytes) (audioData : Bytes) : List Bytes :=
  if audioData = [] then queue else queue ++ [audioData]

/-- One `send_text(text, end_of_turn)` invocation on the model session. -/
structure SendTextCall where
  text : String
  endOfTurn : Bool
deriving DecidableEq, Repr

/-- `GeminiRealtimeHandler.send_text`: sends iff a session exists and the text
is non-empty; the call site in the bridge leaves `end_of_turn` at its default
`True`. -/
def gemini_send_text (hasSession : Bool) (text : String) (endOfTurn : Bool) :
    List SendTextCall :=
  if hasSession ∧ text ≠ "" then [{ text := text, endOfTurn := endOfTurn }]
  else []

/-! ## Audio bridge: `src/agenticai/core/audio_bridge.py` -/

/-- The fixed prefix of the relay prompt built in
`AudioBridge._handle_clawdbot_response`; the ClawdBot response is appended
after it. -/
def clawdbotRelayPrefix : String :=
  "The system has retrieved the following information for the user.\nPlease relay this information to them naturally in a conversational way.\nKeep your response concise and to the point. Don't add unnecessary commentary.\n\nInformation to relay:\n"

/-- `AudioBridge._handle_clawdbot_response`: empty responses are dropped;
otherwise the relay prompt (prefix ++ response) goes to
`gemini.send_text(prompt)` with `end_of_turn` defaulted to `True`. -/
def handle_clawdbot_response (hasSession : Bool) (response : String) :
    List SendTextCall :=
  if response = "" then []
  else gemini_send_text hasSession (clawdbotRelayPrefix ++ response) true

/-- The bridge state the model→carrier path touches: the carrier handler
state, the brain, and the model handler's `audio_in_queue` (audio frames from
the model awaiting forwarding to the carrier). -/
structure BridgeState where
  twilio : TwilioState
  brain : BrainState
  audioInQueue : List Bytes
deriving DecidableEq, Repr

/-- Events the bridge reacts to on the model side, plus one iteration of the
`_process_gemini_audio` pump. `userTranscriptFragment` is the caller-speech
signal (`input_transcription` → `_handle_user_transcript_async`). -/
inductive BridgeEvent where
  | geminiAudioChunk (data : Bytes)
  | userTranscriptFragment (text : String)
  | assistantTranscriptFragment (text : String)
  | geminiTurnComplete
  | userTurnComplete
  | pumpStep
deriving DecidableEq, Repr

/-- One step of the bridge: how each event changes the state and which
outbound carrier frames it writes. Translated from the `AudioBridge`
callbacks registered in `start` (lines 123–155) and the
`_process_gemini_audio` loop; `conv` is the composed
`gemini_to_twilio` conversion (soxr + audioop + base64), `llm` /
`telegramChatId` / `proc` parametrize the brain as above. Note that no event
touches `send_clear` and no event drains `audioInQueue` other than the pump
removing one head frame to play it. -/
def bridgeStep (conv : Bytes → String) (llm : String → Option String)
    (telegramChatId : String) (proc : String → SubprocessOutcome)
    (s : BridgeState) (e : BridgeEvent) : BridgeState × List OutFrame :=
  match e with
  | BridgeEvent.geminiAudioChunk d =>
    ({ s with audioInQueue := s.audioInQueue ++ [d] }, [])
  | BridgeEvent.userTranscriptFragment t =>
    ({ s with brain := add_user_transcript s.brain t }, [])
  | BridgeEvent.assistantTranscriptFragment t =>
    ({ s with brain := add_assistant_transcript s.brain t }, [])
  | BridgeEvent.geminiTurnComplete =>
    ({ s with brain := flush_assistant_turn s.brain }, [])
  | BridgeEvent.userTurnComplete =>
    ({ s with brain :=
        (flush_user_turn llm telegramChatId proc true false s.brain).state }, [])
  | BridgeEvent.pumpStep =>
    match s.audioInQueue with
    | [] => (s, [])
    | d :: rest =>
      ({ s with audioInQueue := rest }, send_audio s.twilio (conv d))

/-- A trivial stand-in for the composed audio conversion, used to instantiate
theorems at concrete inputs. -/
def convStub : Bytes → String := fun bs => toString bs.length

/-- A trivial stand-in for the LLM classifier. -/
def llmStub : String → Option String := fun _ => none

/-- A trivial stand-in for the ClawdBot subprocess. -/
def procStub : String → SubprocessOutcome :=
  fun _ => SubprocessOutcome.timedOut

/-- One transcript-append call on the brain (the only two operations that ever
write the fragment buffers). -/
inductive BrainAddOp where
  | user (t : String)
  | assistant (t : String)
deriving DecidableEq, Repr

/-- The fragment text carried by an append call. -/
def BrainAddOp.fragment : BrainAddOp → String
  | BrainAddOp.user t => t
  | BrainAddOp.assistant t => t

/-- Apply one transcript-append call. -/
def applyAdd (s : BrainState) : BrainAddOp → BrainState
  | BrainAddOp.user t => add_user_transcript s t
  | BrainAddOp.assistant t => add_assistant_transcript s t

/-- Apply a sequence of transcript-append calls in order. -/
def applyAdds (s : BrainState) (ops : List BrainAddOp) : BrainState :=
  ops.foldl applyAdd s

/-- A concrete mid-call bridge state used to instantiate theorems: the
carrier stream is connected with stream id `"MZ123"`, and two assistant audio
frames sit in the model→carrier queue awaiting playback. -/
def bargeInState : BridgeState :=
  { twilio := {
      isConnected := true,
      metadata := {
        streamSid := "MZ123", callSid := "CA1", accountSid := "AC1" } },
    brain := initialBrain,
    audioInQueue := [[1], [2]] }

/-! ## Helper lemmas -/

/-- A byte string of odd length cannot be viewed as int16 samples: numpy's
`frombuffer` (and audioop's frame check) reject it. -/
theorem bytesToInt16_odd :
    ∀ (bs : Bytes), bs.length % 2 = 1 → bytesToInt16 bs = none
  | [], h => by simp at h
  | [_], _ => rfl
  | lo :: hi :: rest, h => by
    have hr : rest.length % 2 = 1 := by
      simp only [List.length_cons] at h
      omega
    simp [bytesToInt16, bytesToInt16_odd rest hr]

/-- After any `flush_user_turn`, the user buffer is empty. -/
theorem flush_user_turn_clears_buffer (llm : String → Option String)
    (chatId : String) (proc : String → SubprocessOutcome)
    (cb1 cb2 : Bool) (s : BrainState) :
    (flush_user_turn llm chatId proc cb1 cb2 s).state.userBuffer = [] := by
  by_cases hbuf : s.userBuffer = []
  · simp [flush_user_turn, hbuf, noFlushEffects]
  · simp only [flush_user_turn, if_neg hbuf]
    split
    · simp [noFlushEffects]
    · simp

/-- After any `flush_assistant_turn`, the assistant buffer is empty. -/
theorem flush_assistant_turn_clears_buffer (s : BrainState) :
    (flush_assistant_turn s).assistantBuffer = [] := by
  by_cases hbuf : s.assistantBuffer = []
  · simp [flush_assistant_turn, hbuf]
  · simp only [flush_assistant_turn, if_neg hbuf]
    split <;> simp

/-- Flushing a user turn with an empty buffer changes nothing and has no
effects. -/
theorem flush_user_turn_empty_noop (llm : String → Option String)
    (chatId : String) (proc : String → SubprocessOutcome)
    (cb1 cb2 : Bool) (s : BrainState) (h : s.userBuffer = []) :
    flush_user_turn llm chatId proc cb1 cb2 s = noFlushEffects s := by
  simp [flush_user_turn, h]

/-- Flushing an assistant turn with an empty buffer changes nothing. -/
theorem flush_assistant_turn_empty_noop (s : BrainState)
    (h : s.assistantBuffer = []) : flush_assistant_turn s = s := by
  simp [flush_assistant_turn, h]

/-! ## Claims -/

/-- Claim C4 (confirmed): for every byte string `x` and every rate
`r ∈ {8000, 16000, 24000}`, resampling `x` from `r` to `r` returns `x` itself
byte-for-byte (the code returns the input unchanged whenever the rates agree,
regardless of the external resampler core `soxr`). -/
theorem resample_same_rate_identity (soxr : List Int → Nat → Nat → List Int)
    (x : Bytes) (r : Nat) (h : r = 8000 ∨ r = 16000 ∨ r = 24000) :
    resample soxr x r r = Except.ok x := by
  simp [resample]

/-- Witness for C4 at `x = [1, 2, 3]`, `r = 16000`. -/
theorem resample_same_rate_identity_witness :
    resample soxrStub [1, 2, 3] 16000 16000 = Except.ok [1, 2, 3] :=
  resample_same_rate_identity soxrStub [1, 2, 3] 16000 (Or.inr (Or.inl rfl))

/-- Claim C3 (corrected): the claim says odd-length PCM16 inputs are silently
truncated; in fact they are rejected. For every PCM16 input of odd byte
length: `_resample` with `from_rate ≠ to_rate` raises (numpy's `frombuffer`
`ValueError`), `lin2ulaw` raises (audioop's frame check), and
`gemini_to_twilio` raises at its resample step — no truncated result is
returned. (With equal rates `_resample` returns the input unchanged, again
without truncation.) -/
theorem codec_odd_length_raises (soxr : List Int → Nat → Nat → List Int)
    (enc : Int → Nat) (b64 : Bytes → String) (audio : Bytes)
    (fromRate toRate : Nat) (hodd : audio.length % 2 = 1)
    (hne : fromRate ≠ toRate) :
    resample soxr audio fromRate toRate
      = Except.error "buffer size must be a multiple of element size"
    ∧ lin2ulaw enc audio = Except.error "not a whole number of frames"
    ∧ gemini_to_twilio soxr enc b64 audio
      = Except.error "buffer size must be a multiple of element size"
    ∧ resample soxr audio fromRate fromRate = Except.ok audio := by
  have hb := bytesToInt16_odd audio hodd
  refine ⟨?_, ?_, ?_, ?_⟩
  · simp [resample, hne, hb]
  · simp [lin2ulaw, hb]
  · have h24 : GEMINI_OUTPUT_SAMPLE_RATE ≠ TWILIO_SAMPLE_RATE := by decide
    simp [gemini_to_twilio, resample, h24, hb, Bind.bind, Except.bind]
  · simp [resample]

/-- Witness for C3 at the one-byte input `[1]`, rates 24000 → 8000. -/
theorem codec_odd_length_raises_witness :
    resample soxrStub [1] 24000 8000
      = Except.error "buffer size must be a multiple of element size"
    ∧ lin2ulaw ulawStub [1] = Except.error "not a whole number of frames"
    ∧ gemini_to_twilio soxrStub ulawStub b64Stub [1]
      = Except.error "buffer size must be a multiple of element size"
    ∧ resample soxrStub [1] 24000 24000 = Except.ok [1] :=
  codec_odd_length_raises soxrStub ulawStub b64Stub [1] 24000 8000
    (by decide) (by decide)

/-- Counterexample for C3: the odd-length input `[1]` makes `_resample`
(24 kHz → 8 kHz) and `gemini_to_twilio` raise an error instead of silently
truncating the trailing byte and returning a result. -/
theorem codec_odd_length_truncation_cex :
    resample soxrStub [1] 24000 8000
      = Except.error "buffer size must be a multiple of element size"
    ∧ (∀ out : Bytes, resample soxrStub [1] 24000 8000 ≠ Except.ok out)
    ∧ gemini_to_twilio soxrStub ulawStub b64Stub [1]
      = Except.error "buffer size must be a multiple of element size" := by
  refine ⟨rfl, ?_, rfl⟩
  intro out h
  simp [resample, bytesToInt16] at h

/-- Claim C2 (corrected): the claim says the carrier-to-model audio queue is
bounded with drop-oldest eviction; in fact `connect` creates
`asyncio.Queue()` with no `maxsize` (unbounded), and `send_audio` appends
each non-empty frame at the tail without ever evicting: the length always
grows by one and the previously queued frames are retained in order (so no
frame is ever reordered; empty frames are ignored before the queue is
touched). -/
theorem carrier_to_model_queue_unbounded_append (q : List Bytes) (d : Bytes)
    (h : d ≠ []) :
    gemini_send_audio q d = q ++ [d]
    ∧ (gemini_send_audio q d).length = q.length + 1
    ∧ audioOutQueueMaxsize = 0
    ∧ gemini_send_audio q [] = q := by
  refine ⟨by simp [gemini_send_audio, h], by simp [gemini_send_audio, h],
    rfl, by simp [gemini_send_audio]⟩

/-- Witness for C2 on a three-frame queue. -/
theorem carrier_to_model_queue_unbounded_append_witness :
    gemini_send_audio [[0], [1], [2]] [3] = [[0], [1], [2], [3]]
    ∧ (gemini_send_audio [[0], [1], [2]] [3]).length = 3 + 1
    ∧ audioOutQueueMaxsize = 0
    ∧ gemini_send_audio [[0], [1], [2]] [] = [[0], [1], [2]] :=
  carrier_to_model_queue_unbounded_append [[0], [1], [2]] [3] (by decide)

/-- Counterexample for C2: the queue's `maxsize` is 0 (asyncio: never full,
i.e. not bounded), and enqueueing onto a queue holding three frames yields
four frames with the oldest frame still at the head — no eviction, no
invariant length. -/
theorem carrier_to_model_queue_bounded_cex :
    audioOutQueueMaxsize = 0
    ∧ gemini_send_audio [[0], [1], [2]] [3] = [[0], [1], [2], [3]]
    ∧ (gemini_send_audio [[0], [1], [2]] [3]).length ≠ 3
    ∧ (gemini_send_audio [[0], [1], [2]] [3]).head? = some [0] := by
  refine ⟨rfl, by decide, by decide, by decide⟩

/-- Claim C5 (confirmed): flushing a speaker's buffer records as the turn
text exactly the concatenation of the appended fragments in append order
(`"".join`), with only outer whitespace trimmed and no separator inserted; in
particular `["Hel", "lo ", "world"]` flushes to `"Hello world"`. -/
theorem flush_records_verbatim_concatenation (llm : String → Option String)
    (chatId : String) (proc : String → SubprocessOutcome) (cb1 cb2 : Bool)
    (s : BrainState) :
    (pyStrip (String.join s.userBuffer) ≠ "" →
      ((flush_user_turn llm chatId proc cb1 cb2 s).state.memoryTurns.map
          ConversationTurn.text
        = s.memoryTurns.map ConversationTurn.text
          ++ [pyStrip (String.join s.userBuffer)]
      ∧ (flush_user_turn llm chatId proc cb1 cb2 s).state.memoryTurns.map
          ConversationTurn.speaker
        = s.memoryTurns.map ConversationTurn.speaker ++ ["user"]))
    ∧ (pyStrip (String.join s.assistantBuffer) ≠ "" →
      flush_assistant_turn s = { s with
        assistantBuffer := [],
        memoryTurns := s.memoryTurns ++
          [{ speaker := "assistant",
             text := pyStrip (String.join s.assistantBuffer),
             intent := none, command := none }] }) := by
  constructor
  · intro h
    have hbuf : s.userBuffer ≠ [] := by
      intro hb
      rw [hb] at h
      exact h rfl
    simp [flush_user_turn, if_neg hbuf, if_neg h]
  · intro h
    have hbuf : s.assistantBuffer ≠ [] := by
      intro hb
      rw [hb] at h
      exact h rfl
    simp [flush_assistant_turn, if_neg hbuf, if_neg h]

/-- Witness for C5: user fragments `["Hel", "lo ", "world"]` flush to exactly
`"Hello world"`, assistant fragments `["I'll ", "do that."]` to
`"I'll do that."`. -/
theorem flush_records_verbatim_concatenation_witness :
    (pyStrip (String.join ["Hel", "lo ", "world"]) ≠ ""
      ∧ pyStrip (String.join ["I'll ", "do that."]) ≠ "")
    ∧ ((flush_user_turn llmStub "chat" procStub true false
        { assistantBuffer := ["I'll ", "do that."],
          userBuffer := ["Hel", "lo ", "world"],
          memoryTurns := [] }).state.memoryTurns.map ConversationTurn.text
      = [] ++ ["Hello world"])
    ∧ (flush_assistant_turn
        { assistantBuffer := ["I'll ", "do that."],
          userBuffer := ["Hel", "lo ", "world"],
          memoryTurns := [] }).memoryTurns.map ConversationTurn.text
      = ["I'll do that."] := by
  have h := flush_records_verbatim_concatenation llmStub "chat" procStub
    true false
    { assistantBuffer := ["I'll ", "do that."],
      userBuffer := ["Hel", "lo ", "world"], memoryTurns := [] }
  refine ⟨⟨by decide, by decide⟩, ?_, ?_⟩
  · exact (h.1 (by decide)).1
  · rw [h.2 (by decide)]
    rfl

/-- Claim C6 (confirmed): when the trimmed, lower-cased user text is one of
the trivial phrases or at most 2 characters long, intent analysis returns
`intent = "conversation"`, no command, not actionable, without consulting the
LLM classifier; and flushing such a turn dispatches nothing to the Executor
(no ClawdBot call, no spoken response, no kill, no command callback). -/
theorem trivial_phrase_skips_executor (llm : String → Option String)
    (chatId : String) (proc : String → SubprocessOutcome) (cb1 cb2 : Bool)
    (s : BrainState)
    (h : nonActionablePhrases.contains
          (pyStrip (pyLower (pyStrip (String.join s.userBuffer)))) = true
        ∨ (pyStrip (pyLower (pyStrip (String.join s.userBuffer)))).length < 3) :
    analyze_intent llm (pyStrip (String.join s.userBuffer))
      = { intent := "conversation", command := none,
          isActionable := false, usedLLM := false }
    ∧ (flush_user_turn llm chatId proc cb1 cb2 s).executorCalls = []
    ∧ (flush_user_turn llm chatId proc cb1 cb2 s).llmConsulted = false
    ∧ (flush_user_turn llm chatId proc cb1 cb2 s).spokenResponses = []
    ∧ (flush_user_turn llm chatId proc cb1 cb2 s).killed = false
    ∧ (flush_user_turn llm chatId proc cb1 cb2 s).commandCallbacks = [] := by
  have hcond : (nonActionablePhrases.contains
        (pyStrip (pyLower (pyStrip (String.join s.userBuffer)))) = true)
      ∨ (pyStrip (pyLower (pyStrip (String.join s.userBuffer)))).length < 3 := h
  have hana : analyze_intent llm (pyStrip (String.join s.userBuffer))
      = { intent := "conversation", command := none,
          isActionable := false, usedLLM := false } := by
    unfold analyze_intent
    rw [if_pos]
    rcases hcond with hc | hc
    · exact Or.inl hc
    · exact Or.inr hc
  refine ⟨hana, ?_⟩
  by_cases hbuf : s.userBuffer = []
  · simp [flush_user_turn, hbuf, noFlushEffects]
  · by_cases hfull : pyStrip (String.join s.userBuffer) = ""
    · simp [flush_user_turn, if_neg hbuf, if_pos hfull, noFlushEffects]
    · simp [flush_user_turn, if_neg hbuf, if_neg hfull, hana]

/-- Witness for C6: the caller says `"hi"`; analysis yields conversation and
the Executor is not invoked. -/
theorem trivial_phrase_skips_executor_witness :
    (nonActionablePhrases.contains
        (pyStrip (pyLower (pyStrip (String.join ["hi"])))) = true
      ∨ (pyStrip (pyLower (pyStrip (String.join ["hi"])))).length < 3)
    ∧ analyze_intent llmStub (pyStrip (String.join ["hi"]))
      = { intent := "conversation", command := none,
          isActionable := false, usedLLM := false }
    ∧ (flush_user_turn llmStub "chat" procStub true false
        { initialBrain with userBuffer := ["hi"] }).executorCalls = []
    ∧ (flush_user_turn llmStub "chat" procStub true false
        { initialBrain with userBuffer := ["hi"] }).llmConsulted = false := by
  have h := trivial_phrase_skips_executor llmStub "chat" procStub true false
    { initialBrain with userBuffer := ["hi"] } (Or.inl (by decide))
  exact ⟨Or.inl (by decide), h.1, h.2.1, h.2.2.1⟩

/-- Claim C7 (confirmed): when the ClawdBot subprocess does not complete
within the 95 s hard timeout (the CLI itself is passed `--timeout 90`), the
process is killed and the dispatch returns the fixed "still working on that"
phrase instead of a reply; the flush hands that phrase to the response
callback (no exception propagates — the embedded dispatch is total), and the
bridge relays it to `send_text` with `end_of_turn = true`, inside a prompt
that carries the phrase verbatim. -/
theorem executor_timeout_fallback_phrase (llm : String → Option String)
    (chatId : String) (proc : String → SubprocessOutcome) (s : BrainState)
    (hchat : chatId ≠ "")
    (hbuf : pyStrip (String.join s.userBuffer) ≠ "")
    (hact : (analyze_intent llm
        (pyStrip (String.join s.userBuffer))).isActionable = true)
    (hproc : proc (pyStrip (String.join s.userBuffer))
        = SubprocessOutcome.timedOut) :
    send_to_clawdbot chatId SubprocessOutcome.timedOut
      = { reply := some stillWorkingPhrase, killed := true }
    ∧ (flush_user_turn llm chatId proc true false s).spokenResponses
      = [stillWorkingPhrase]
    ∧ (flush_user_turn llm chatId proc true false s).killed = true
    ∧ handle_clawdbot_response true stillWorkingPhrase
      = [{ text := clawdbotRelayPrefix ++ stillWorkingPhrase,
           endOfTurn := true }]
    ∧ clawdbotArgTimeoutSeconds = 90
    ∧ clawdbotHardTimeoutSeconds = 95 := by
  have hbufne : s.userBuffer ≠ [] := by
    intro hb
    rw [hb] at hbuf
    exact hbuf rfl
  have hsend : send_to_clawdbot chatId SubprocessOutcome.timedOut
      = { reply := some stillWorkingPhrase, killed := true } := by
    simp [send_to_clawdbot, hchat]
  have hphrase : stillWorkingPhrase ≠ "" := by decide
  refine ⟨hsend, ?_, ?_, ?_, rfl, rfl⟩
  · simp [flush_user_turn, if_neg hbufne, if_neg hbuf, hact, hproc, hsend,
      hphrase]
  · simp [flush_user_turn, if_neg hbufne, if_neg hbuf, hact, hproc, hsend]
  · simp [handle_clawdbot_response, gemini_send_text,
      clawdbotRelayPrefix, stillWorkingPhrase]

/-- Witness for C7: the caller says `"open Spotify"` (heuristically
actionable) and the subprocess times out. -/
theorem executor_timeout_fallback_phrase_witness :
    ((("chat" : String) ≠ "")
      ∧ pyStrip (String.join ["open Spotify"]) ≠ ""
      ∧ (analyze_intent llmStub
          (pyStrip (String.join ["open Spotify"]))).isActionable = true
      ∧ procStub (pyStrip (String.join ["open Spotify"]))
          = SubprocessOutcome.timedOut)
    ∧ (flush_user_turn llmStub "chat" procStub true false
        { initialBrain with userBuffer := ["open Spotify"] }).spokenResponses
      = [stillWorkingPhrase]
    ∧ (flush_user_turn llmStub "chat" procStub true false
        { initialBrain with userBuffer := ["open Spotify"] }).killed = true
    ∧ handle_clawdbot_response true stillWorkingPhrase
      = [{ text := clawdbotRelayPrefix ++ stillWorkingPhrase,
           endOfTurn := true }] := by
  have h := executor_timeout_fallback_phrase llmStub "chat" procStub
    { initialBrain with userBuffer := ["open Spotify"] }
    (by decide) (by decide) (by decide) rfl
  exact ⟨⟨by decide, by decide, by decide, rfl⟩, h.2.1, h.2.2.1, h.2.2.2.1⟩

/-- Claim C8 (confirmed): flushing a speaker's buffer when it is empty is a
no-op (state unchanged, no Executor dispatch, no LLM call, nothing spoken,
nothing killed, no command callback), and because every flush leaves the
buffer empty, flushing twice with no appends in between makes the second
flush a no-op. -/
theorem flush_empty_noop_idempotent (llm llm2 : String → Option String)
    (chatId chatId2 : String) (proc proc2 : String → SubprocessOutcome)
    (cb1 cb2 cb3 cb4 : Bool) (s : BrainState) :
    (s.userBuffer = [] →
      flush_user_turn llm chatId proc cb1 cb2 s = noFlushEffects s)
    ∧ (s.assistantBuffer = [] → flush_assistant_turn s = s)
    ∧ flush_user_turn llm2 chatId2 proc2 cb3 cb4
        (flush_user_turn llm chatId proc cb1 cb2 s).state
      = noFlushEffects (flush_user_turn llm chatId proc cb1 cb2 s).state
    ∧ flush_assistant_turn (flush_assistant_turn s)
      = flush_assistant_turn s := by
  refine ⟨flush_user_turn_empty_noop llm chatId proc cb1 cb2 s,
    flush_assistant_turn_empty_noop s, ?_, ?_⟩
  · exact flush_user_turn_empty_noop llm2 chatId2 proc2 cb3 cb4 _
      (flush_user_turn_clears_buffer llm chatId proc cb1 cb2 s)
  · exact flush_assistant_turn_empty_noop _
      (flush_assistant_turn_clears_buffer s)

/-- Witness for C8 at the freshly initialized brain (both buffers empty). -/
theorem flush_empty_noop_idempotent_witness :
    (initialBrain.userBuffer = [] ∧ initialBrain.assistantBuffer = [])
    ∧ flush_user_turn llmStub "chat" procStub true false initialBrain
      = noFlushEffects initialBrain
    ∧ flush_assistant_turn initialBrain = initialBrain := by
  have h := flush_empty_noop_idempotent llmStub llmStub "chat" "chat"
    procStub procStub true false true false initialBrain
  exact ⟨⟨rfl, rfl⟩, h.1 rfl, h.2.1 rfl⟩

/-- Claim C9 (corrected): the gate on outbound writes is the `connected`
flag, which the `connected` event sets and the `stop` event clears — not the
`start` event as the claim words it. Whenever the flag is down, `send_audio`
and `send_clear` write nothing and return; whenever it is up, `send_audio`
writes exactly one media frame echoing the stored stream id (empty until
`start` stores the metadata) and `send_clear` exactly one clear frame. -/
theorem send_gated_on_connected_flag (s : TwilioState) (payload : String) :
    (s.isConnected = false → send_audio s payload = [] ∧ send_clear s = [])
    ∧ (s.isConnected = true →
        send_audio s payload = [OutFrame.media s.metadata.streamSid payload]
        ∧ send_clear s = [OutFrame.clear s.metadata.streamSid]) := by
  constructor <;> intro h <;> simp [send_audio, send_clear, h]

/-- Witness for C9: nothing is written in the initial state; after the
`connected` event one media frame and one clear frame are written. -/
theorem send_gated_on_connected_flag_witness :
    (initialTwilio.isConnected = false
      ∧ send_audio initialTwilio "QUJD" = [] ∧ send_clear initialTwilio = [])
    ∧ ((handle_message initialTwilio TwilioEvent.connected).isConnected = true
      ∧ send_audio (handle_message initialTwilio TwilioEvent.connected) "QUJD"
        = [OutFrame.media "" "QUJD"]
      ∧ send_clear (handle_message initialTwilio TwilioEvent.connected)
        = [OutFrame.clear ""]) := by
  have h1 := send_gated_on_connected_flag initialTwilio "QUJD"
  have h2 := send_gated_on_connected_flag
    (handle_message initialTwilio TwilioEvent.connected) "QUJD"
  exact ⟨⟨rfl, h1.1 rfl⟩, ⟨rfl, h2.2 rfl⟩⟩

/-- Counterexample for C9: after only the carrier `connected` event — the
`start` event has not been received, so no stream id is stored — `send_audio`
does write a media frame (with the empty stream id), contradicting the
claim that nothing is written before `start` arrives. -/
theorem send_before_start_writes_cex :
    send_audio (handle_message initialTwilio TwilioEvent.connected) "QUJD"
      = [OutFrame.media "" "QUJD"]
    ∧ send_audio (handle_message initialTwilio TwilioEvent.connected) "QUJD"
      ≠ []
    ∧ send_clear (handle_message initialTwilio TwilioEvent.connected)
      ≠ [] := by
  refine ⟨rfl, by simp [send_audio, handle_message, initialTwilio],
    by simp [send_clear, handle_message, initialTwilio]⟩

/-- One append call preserves freedom from empty-string fragments. -/
theorem applyAdd_no_empty (s : BrainState) (op : BrainAddOp)
    (hu : "" ∉ s.userBuffer) (ha : "" ∉ s.assistantBuffer) :
    "" ∉ (applyAdd s op).userBuffer
    ∧ "" ∉ (applyAdd s op).assistantBuffer := by
  cases op with
  | user t =>
    by_cases ht : t = ""
    · subst ht
      exact ⟨by simpa [applyAdd, add_user_transcript] using hu,
        by simpa [applyAdd, add_user_transcript] using ha⟩
    · refine ⟨?_, by simpa [applyAdd, add_user_transcript, ht] using ha⟩
      simp only [applyAdd, add_user_transcript, if_neg ht, List.mem_append,
        List.mem_singleton]
      rintro (h | h)
      · exact hu h
      · exact ht h.symm
  | assistant t =>
    by_cases ht : t = ""
    · subst ht
      exact ⟨by simpa [applyAdd, add_assistant_transcript] using hu,
        by simpa [applyAdd, add_assistant_transcript] using ha⟩
    · refine ⟨by simpa [applyAdd, add_assistant_transcript, ht] using hu, ?_⟩
      simp only [applyAdd, add_assistant_transcript, if_neg ht,
        List.mem_append, List.mem_singleton]
      rintro (h | h)
      · exact ha h
      · exact ht h.symm

/-- A sequence of append calls preserves freedom from empty-string
fragments. -/
theorem applyAdds_no_empty (ops : List BrainAddOp) (s : BrainState)
    (hu : "" ∉ s.userBuffer) (ha : "" ∉ s.assistantBuffer) :
    "" ∉ (applyAdds s ops).userBuffer
    ∧ "" ∉ (applyAdds s ops).assistantBuffer := by
  induction ops generalizing s with
  | nil => exact ⟨hu, ha⟩
  | cons op rest ih =>
    have h := applyAdd_no_empty s op hu ha
    exact ih (applyAdd s op) h.1 h.2

/-- A sequence of append calls whose fragments are all empty changes
nothing. -/
theorem applyAdds_all_empty (ops : List BrainAddOp) (s : BrainState)
    (h : ops.all (fun op => op.fragment = "") = true) :
    applyAdds s ops = s := by
  induction ops generalizing s with
  | nil => rfl
  | cons op rest ih =>
    simp only [List.all_cons, Bool.and_eq_true, decide_eq_true_eq] at h
    have hop : applyAdd s op = s := by
      cases op with
      | user t =>
        have : t = "" := h.1
        simp [applyAdd, add_user_transcript, this]
      | assistant t =>
        have : t = "" := h.1
        simp [applyAdd, add_assistant_transcript, this]
    show applyAdds (applyAdd s op) rest = s
    rw [hop]
    exact ih s (by simpa using h.2)

/-- Claim C10 (confirmed): appending an empty-string fragment for either
speaker leaves the brain state unchanged, so along any sequence of appends
from the initial state neither fragment buffer ever contains an empty-string
element; and a turn boundary reached after only empty-fragment appends
behaves exactly like one reached with no appends at all (the state and both
flushes coincide). -/
theorem empty_fragment_append_noop (llm : String → Option String)
    (chatId : String) (proc : String → SubprocessOutcome) (cb1 cb2 : Bool)
    (s : BrainState) (ops : List BrainAddOp) :
    add_user_transcript s "" = s
    ∧ add_assistant_transcript s "" = s
    ∧ ("" ∉ (applyAdds initialBrain ops).userBuffer
       ∧ "" ∉ (applyAdds initialBrain ops).assistantBuffer)
    ∧ (ops.all (fun op => op.fragment = "") = true →
        applyAdds s ops = s
        ∧ flush_user_turn llm chatId proc cb1 cb2 (applyAdds s ops)
          = flush_user_turn llm chatId proc cb1 cb2 s
        ∧ flush_assistant_turn (applyAdds s ops) = flush_assistant_turn s) := by
  refine ⟨by simp [add_user_transcript], by simp [add_assistant_transcript],
    applyAdds_no_empty ops initialBrain (by simp [initialBrain])
      (by simp [initialBrain]), ?_⟩
  intro h
  have heq := applyAdds_all_empty ops s h
  exact ⟨heq, by rw [heq], by rw [heq]⟩

/-- Witness for C10: two empty-fragment appends on a state with one fragment
in each buffer change nothing. -/
theorem empty_fragment_append_noop_witness :
    ([BrainAddOp.user "", BrainAddOp.assistant ""].all
        (fun op => op.fragment = "") = true)
    ∧ applyAdds
        { assistantBuffer := ["a"], userBuffer := ["b"], memoryTurns := [] }
        [BrainAddOp.user "", BrainAddOp.assistant ""]
      = { assistantBuffer := ["a"], userBuffer := ["b"], memoryTurns := [] }
    ∧ add_user_transcript
        { assistantBuffer := ["a"], userBuffer := ["b"], memoryTurns := [] } ""
      = { assistantBuffer := ["a"], userBuffer := ["b"], memoryTurns := [] } := by
  have h := empty_fragment_append_noop llmStub "chat" procStub true false
    { assistantBuffer := ["a"], userBuffer := ["b"], memoryTurns := [] }
    [BrainAddOp.user "", BrainAddOp.assistant ""]
  exact ⟨by decide, (h.2.2.2 (by decide)).1, h.1⟩

/-- Claim C1 (corrected): the Bridge implements no barge-in handling at all.
No bridge reaction to any event ever emits a carrier `clear` frame
(`send_clear` has no caller), and the caller-speech event leaves the
model→carrier audio queue untouched and writes nothing — so queued assistant
audio keeps playing after a barge-in instead of being drained and cleared. -/
theorem bridge_no_barge_in_clear (conv : Bytes → String)
    (llm : String → Option String) (chatId : String)
    (proc : String → SubprocessOutcome) (s : BridgeState) (e : BridgeEvent)
    (t : String) :
    ((bridgeStep conv llm chatId proc s e).2.all
      (fun f => ! OutFrame.isClear f)) = true
    ∧ (bridgeStep conv llm chatId proc s
        (BridgeEvent.userTranscriptFragment t)).1.audioInQueue
      = s.audioInQueue
    ∧ (bridgeStep conv llm chatId proc s
        (BridgeEvent.userTranscriptFragment t)).2 = [] := by
  refine ⟨?_, rfl, rfl⟩
  cases e with
  | geminiAudioChunk d => simp [bridgeStep]
  | userTranscriptFragment t2 => simp [bridgeStep]
  | assistantTranscriptFragment t2 => simp [bridgeStep]
  | geminiTurnComplete => simp [bridgeStep]
  | userTurnComplete => simp [bridgeStep]
  | pumpStep =>
    cases hq : s.audioInQueue with
    | nil => simp [bridgeStep, hq]
    | cons d rest =>
      by_cases hc : s.twilio.isConnected = true
      · simp [bridgeStep, hq, send_audio, hc, OutFrame.isClear]
      · simp [bridgeStep, hq, send_audio, hc]

/-- Counterexample for C1: with the carrier connected and two assistant
frames queued, the caller-speech event produces no `clear` frame and leaves
both frames queued; the next outbound frame the carrier sees is the stale
pre-barge-in assistant audio, not a `clear`. -/
theorem barge_in_clear_missing_cex :
    (bridgeStep convStub llmStub "chat" procStub bargeInState
        (BridgeEvent.userTranscriptFragment "Stop")).2 = []
    ∧ (bridgeStep convStub llmStub "chat" procStub bargeInState
        (BridgeEvent.userTranscriptFragment "Stop")).1.audioInQueue
      = [[1], [2]]
    ∧ (bridgeStep convStub llmStub "chat" procStub
        (bridgeStep convStub llmStub "chat" procStub bargeInState
          (BridgeEvent.userTranscriptFragment "Stop")).1
        BridgeEvent.pumpStep).2
      = [OutFrame.media "MZ123" (convStub [1])] := by
  exact ⟨rfl, rfl, rfl⟩

end AgenticAI
